import Mathlib

/-!
Shallow embedding of the pyaws repository (files pyaws/session.py and
pyaws/ec2/current_ami.py) together with proofs about its specified
behaviour.

Modelling conventions:
* The local awscli configuration store (read through
  subprocess.getoutput calls of the form
  aws configure get profile.NAME.aws_access_key_id) is modelled as a
  total function config : String -> String giving the command output for
  a profile name; Python truthiness of that output is the test
  output different from the empty string.
* The filesystem test os.path.isfile together with reading a file line
  by line is modelled as fs : String -> Option (List String): the value
  some lines means the path names a file whose (newline stripped) lines
  are given; none means the path is not a file.
* Python exceptions are modelled with Except PyErr; a function that can
  let an exception escape returns Except PyErr alpha, and a raised
  exception is Except.error.
* The boto3 provider is modelled by outcome functions: per profile name
  a ProfileStatus for constructing a profile scoped session, and for the
  image lookup a function query : String -> List String -> QueryOutcome
  giving, per region and per name filter list, the combined outcome of
  boto3_session plus client.describe_images in that region (a
  botocore ClientError, some other exception, or a list of images).
-/

namespace Pyaws

/-- Python exceptions that escape the embedded functions. -/
inductive PyErr where
  | clientError (code msg : String)
  | profileNotFound
  | indexError
  | keyError
  | otherError
deriving DecidableEq, Repr

/-! ## session.py -/

/-- Embeds _profile_prefix from pyaws/session.py. The parameter pfx is
the keyword parameter of the Python function (default value gcreds,
always passed explicitly here). Returns the profile unchanged when the
local config stores an access key for it, else the prefixed temporary
profile when that one has a stored key, else none (Python None). -/
def resolveProfile (config : String → String) (profile : String) (pfx : String) : Option String :=
  let tempProfile := pfx ++ "-" ++ profile
  if config profile ≠ "" then some profile
  else if config tempProfile ≠ "" then some tempProfile
  else none

/-- Models the Python str.strip() method: removes leading and trailing
whitespace. Written structurally over the character list so that it
evaluates inside the kernel. -/
def pyStrip (s : String) : String :=
  String.mk (((s.data.dropWhile Char.isWhitespace).reverse.dropWhile
    Char.isWhitespace).reverse)

/-- Input forms accepted by parse_profiles: a bare string or a Python
list of strings. A string may additionally name a file (decided by the
fs model). -/
inductive Profiles where
  | str (s : String)
  | list (l : List String)
deriving DecidableEq, Repr

/-- Return shape of parse_profiles: either a bare resolved name (the
single profile branch) or a Python list of resolved names. -/
inductive ParseResult where
  | single (r : Option String)
  | many (l : List (Option String))
deriving DecidableEq, Repr

/-- True when a ParseResult is a list (sequence) of names. -/
def isMany : ParseResult → Bool
  | ParseResult.many _ => true
  | ParseResult.single _ => false

/-- Embeds parse_profiles from pyaws/session.py. A Python list input is
mapped elementwise through _profile_prefix after strip; a string naming
a file is read and every line (blank ones included) is stripped and
resolved; any other string is stripped, resolved and returned bare. -/
def parse_profiles (config : String → String) (fs : String → Option (List String)) :
    Profiles → ParseResult
  | Profiles.list l =>
      ParseResult.many (l.map (fun x => resolveProfile config (pyStrip x) "gcreds"))
  | Profiles.str s =>
      match fs s with
      | some lines =>
          ParseResult.many (lines.map (fun line => resolveProfile config (pyStrip line) "gcreds"))
      | none => ParseResult.single (resolveProfile config (pyStrip s) "gcreds")

/-- Outcome of constructing boto3.Session(profile_name=p) followed by
session.client(service, region_name=region) for a named profile. -/
inductive ProfileStatus where
  | ok
  | profileNotFound
  | clientError (code msg : String)
deriving DecidableEq, Repr

/-- A boto3 client handle: either built from ambient default
credentials (boto3.client) or scoped to a named profile
(boto3.Session(profile_name=p).client). -/
inductive Client where
  | defaultClient (service region : String)
  | profileClient (service region profile : String)
deriving DecidableEq, Repr

/-- Embeds boto3_session from pyaws/session.py. When the profile
argument is falsy (None or the empty string) or equals default, the
profile branch is skipped and a default credential client is returned.
Otherwise the profile scoped construction is attempted: on
ProfileNotFound the error is logged and control falls through to the
default credential client; a ClientError is logged and re-raised. -/
def boto3_session (env : String → ProfileStatus) (service region : String) :
    Option String → Except PyErr Client
  | none => Except.ok (Client.defaultClient service region)
  | some p =>
      if p = "" ∨ p = "default" then Except.ok (Client.defaultClient service region)
      else
        match env p with
        | ProfileStatus.ok => Except.ok (Client.profileClient service region p)
        | ProfileStatus.clientError c m => Except.error (PyErr.clientError c m)
        | ProfileStatus.profileNotFound => Except.ok (Client.defaultClient service region)

/-- Outcome of sts get_caller_identity on a client: a response whose
ResponseMetadata carries HTTPStatusCode, a botocore ClientError, or any
other exception. -/
inductive IdentityOutcome where
  | ok (httpStatus : Nat)
  | clientError (code msg : String)
  | otherExc
deriving DecidableEq, Repr

/-- Embeds authenticated from pyaws/session.py. Builds an sts client
via boto3_session (region is the module level DEFAULT_REGION, passed
here explicitly) and checks the HTTP status of get_caller_identity.
Returns true only on status 200. A ClientError (whether
InvalidClientTokenId, ExpiredToken or anything else, distinguished in
the source only by what is logged) falls through to return False, and
every other exception returns False; the function is total and never
raises. -/
def authenticated (env : String → ProfileStatus) (identity : Client → IdentityOutcome)
    (region : String) (profile : Option String) : Bool :=
  match boto3_session env "sts" region profile with
  | Except.error _ => false
  | Except.ok client =>
      match identity client with
      | IdentityOutcome.ok httpstatus => httpstatus == 200
      | IdentityOutcome.clientError _ _ => false
      | IdentityOutcome.otherExc => false

/-- Embeds the module level binding in pyaws/session.py line 18:
DEFAULT_REGION = os.environ[AWS_DEFAULT_REGION] or us-east-1. A missing
variable raises KeyError; a present but empty (falsy) value falls back
to us-east-1. -/
def session_DEFAULT_REGION (environ : String → Option String) : Except PyErr String :=
  match environ "AWS_DEFAULT_REGION" with
  | none => Except.error PyErr.keyError
  | some v => Except.ok (if v = "" then "us-east-1" else v)

/-- Embeds the module level binding in pyaws/ec2/current_ami.py line
24: DEFAULT_REGION = os.environ[AWS_DEFAULT_REGION]. A missing variable
raises KeyError and there is no fallback at all. -/
def currentAmi_DEFAULT_REGION (environ : String → Option String) : Except PyErr String :=
  match environ "AWS_DEFAULT_REGION" with
  | none => Except.error PyErr.keyError
  | some v => Except.ok v

/-! ## ec2/current_ami.py -/

/-- A provider reported machine image record (the dict stored in
metadata, with the ImageId field read for the amis dict). -/
structure Image where
  imageId : String
  name : String
deriving DecidableEq, Repr

/-- Outcome of the per region provider interaction inside the loop of
amazonlinux1 and amazonlinux2: the boto3_session call followed by
client.describe_images. Either a botocore ClientError (from either
call), some other exception, or the Images list of the response. -/
inductive QueryOutcome where
  | clientError (code msg : String)
  | otherExc
  | images (l : List Image)
deriving DecidableEq, Repr

/-- The name filter values of the describe_images call in amazonlinux1. -/
def aml1Filters : List String :=
  ["amzn-ami-hvm-2018.??.?.2018????-x86_64-gp2"]

/-- The name filter values of the describe_images call in amazonlinux2. -/
def aml2Filters : List String :=
  ["amzn2-ami-hvm-????.??.?.2018????.?-x86_64-gp2",
   "amzn2-ami-hvm-????.??.?.2018????-x86_64-gp2"]

/-- Return shape of amazonlinux1 and amazonlinux2: the metadata dict of
full image records when detailed is set, else the amis dict of image
identifiers. Dicts are represented as association lists written in
insertion order; the loop visits each region once, so a key is written
at most once per distinct region. -/
inductive AmiResult where
  | detailed (metadata : List (String × Image))
  | ids (amis : List (String × String))
deriving DecidableEq, Repr

/-- The region loop shared by amazonlinux1 and amazonlinux2. Per
region: a ClientError is logged and the loop continues (the region is
skipped); any other exception from the provider interaction is logged
and re-raised; an empty Images list makes the subscript Images[0] raise
IndexError, which the generic handler logs and re-raises; a non empty
list appends the first image to metadata and its ImageId to amis. -/
def amiLoop (query : String → List String → QueryOutcome) (filters : List String) :
    List String → List (String × Image) → List (String × String) →
    Except PyErr (List (String × Image) × List (String × String))
  | [], metadata, amis => Except.ok (metadata, amis)
  | r :: rest, metadata, amis =>
      match query r filters with
      | QueryOutcome.clientError _ _ => amiLoop query filters rest metadata amis
      | QueryOutcome.otherExc => Except.error PyErr.otherError
      | QueryOutcome.images [] => Except.error PyErr.indexError
      | QueryOutcome.images (img :: _) =>
          amiLoop query filters rest (metadata ++ [(r, img)]) (amis ++ [(r, img.imageId)])

/-- The region list selection at the head of amazonlinux1 and
amazonlinux2: a truthy region argument restricts the loop to that single
region, otherwise the get_regions result (which may itself have raised)
is used. -/
def regionSelect (getRegions : Except PyErr (List String)) : Option String → Except PyErr (List String)
  | some r => if r = "" then getRegions else Except.ok [r]
  | none => getRegions

/-- The common body of amazonlinux1 and amazonlinux2 (the two Python
functions are identical up to the name filter list): select the target
regions, run the per region loop, and return the metadata dict when
detailed is set, else the amis dict. -/
def amiRun (query : String → List String → QueryOutcome) (filters : List String)
    (getRegions : Except PyErr (List String)) (region : Option String)
    (detailed : Bool) : Except PyErr AmiResult :=
  match regionSelect getRegions region with
  | Except.error e => Except.error e
  | Except.ok regions =>
      match amiLoop query filters regions [] [] with
      | Except.error e => Except.error e
      | Except.ok (metadata, amis) =>
          Except.ok (if detailed then AmiResult.detailed metadata else AmiResult.ids amis)

/-- Embeds amazonlinux1 from pyaws/ec2/current_ami.py. -/
def amazonlinux1 (query : String → List String → QueryOutcome)
    (getRegions : Except PyErr (List String)) (region : Option String)
    (detailed : Bool) : Except PyErr AmiResult :=
  amiRun query aml1Filters getRegions region detailed

/-- Embeds amazonlinux2 from pyaws/ec2/current_ami.py. The extra
statement that replaces a falsy profile by default before calling
boto3_session has no observable effect on the session (boto3_session
treats None and default alike) and is absorbed into the query model. -/
def amazonlinux2 (query : String → List String → QueryOutcome)
    (getRegions : Except PyErr (List String)) (region : Option String)
    (detailed : Bool) : Except PyErr AmiResult :=
  amiRun query aml2Filters getRegions region detailed

/-- Keys of an AmiResult dict. -/
def amiKeys : AmiResult → List String
  | AmiResult.detailed metadata => metadata.map Prod.fst
  | AmiResult.ids amis => amis.map Prod.fst

/-- First binding lookup in an association list (the value a Python
dict read yields here, since the loop writes each distinct key at most
once and any repeated write stores the same value). -/
def lookupKey {α : Type} (k : String) : List (String × α) → Option α
  | [] => none
  | (a, v) :: rest => if a = k then some v else lookupKey k rest

/-- True when the query of a region neither raises nor returns an
empty image list, i.e. the loop body of amiLoop does not raise there. -/
def regionOk (query : String → List String → QueryOutcome) (filters : List String)
    (r : String) : Bool :=
  match query r filters with
  | QueryOutcome.clientError _ _ => true
  | QueryOutcome.images (_ :: _) => true
  | _ => false

/-- True when the query of a region returns at least one image. -/
def hasImages (query : String → List String → QueryOutcome) (filters : List String)
    (r : String) : Bool :=
  match query r filters with
  | QueryOutcome.images (_ :: _) => true
  | _ => false

/-- The metadata entries the loop collects: per region with a non empty
query result, the pair of the region and the first returned image. -/
def collectImages (query : String → List String → QueryOutcome) (filters : List String)
    (regions : List String) : List (String × Image) :=
  regions.filterMap (fun r =>
    match query r filters with
    | QueryOutcome.images (img :: _) => some (r, img)
    | _ => none)

/-! ## Loop lemmas -/

/-- When the loop returns normally, the accumulators have been extended
by exactly the collected entries: the first image per region whose
query returned a non empty list, in region order (ClientError regions
are skipped). -/
theorem amiLoop_eq_ok (query : String → List String → QueryOutcome) (filters : List String) :
    ∀ (regions : List String) (md : List (String × Image)) (am : List (String × String))
      (p : List (String × Image) × List (String × String)),
      amiLoop query filters regions md am = Except.ok p →
      p.1 = md ++ collectImages query filters regions ∧
      p.2 = am ++ (collectImages query filters regions).map (fun q => (q.1, q.2.imageId)) := by
  intro regions
  induction regions with
  | nil =>
      intro md am p h
      simp only [amiLoop, Except.ok.injEq] at h
      simp [collectImages, ← h]
  | cons r rest ih =>
      intro md am p h
      cases hq : query r filters with
      | clientError c m =>
          simp only [amiLoop, hq] at h
          have := ih md am p h
          simpa [collectImages, List.filterMap_cons, hq] using this
      | otherExc =>
          simp [amiLoop, hq] at h
      | images l =>
          cases l with
          | nil => simp [amiLoop, hq] at h
          | cons img t =>
              simp only [amiLoop, hq] at h
              have := ih (md ++ [(r, img)]) (am ++ [(r, img.imageId)]) p h
              simpa [collectImages, List.filterMap_cons, hq, List.append_assoc] using this

/-- When every target region either raises a ClientError or returns at
least one image, the loop returns normally with exactly the collected
entries appended. -/
theorem amiLoop_ok_of_all (query : String → List String → QueryOutcome) (filters : List String) :
    ∀ (regions : List String) (md : List (String × Image)) (am : List (String × String)),
      (∀ r ∈ regions, regionOk query filters r = true) →
      amiLoop query filters regions md am =
        Except.ok (md ++ collectImages query filters regions,
          am ++ (collectImages query filters regions).map (fun q => (q.1, q.2.imageId))) := by
  intro regions
  induction regions with
  | nil =>
      intro md am h
      simp [amiLoop, collectImages]
  | cons r rest ih =>
      intro md am h
      have hr : regionOk query filters r = true := h r (List.mem_cons_self r rest)
      have hrest : ∀ x ∈ rest, regionOk query filters x = true :=
        fun x hx => h x (List.mem_cons_of_mem r hx)
      cases hq : query r filters with
      | clientError c m =>
          simp only [amiLoop, hq]
          simpa [collectImages, List.filterMap_cons, hq] using ih md am hrest
      | otherExc =>
          simp [regionOk, hq] at hr
      | images l =>
          cases l with
          | nil => simp [regionOk, hq] at hr
          | cons img t =>
              simp only [amiLoop, hq]
              simpa [collectImages, List.filterMap_cons, hq, List.append_assoc]
                using ih (md ++ [(r, img)]) (am ++ [(r, img.imageId)]) hrest

/-- The keys of the collected entries are exactly the regions whose
query returned at least one image, in region order. -/
theorem collectImages_keys (query : String → List String → QueryOutcome) (filters : List String) :
    ∀ regions : List String,
      (collectImages query filters regions).map Prod.fst =
        regions.filter (fun r => hasImages query filters r) := by
  intro regions
  induction regions with
  | nil => simp [collectImages]
  | cons r rest ih =>
      cases hq : query r filters with
      | clientError c m =>
          simp [collectImages, List.filterMap_cons, List.filter_cons, hasImages, hq] at ih ⊢
          exact ih
      | otherExc =>
          simp [collectImages, List.filterMap_cons, List.filter_cons, hasImages, hq] at ih ⊢
          exact ih
      | images l =>
          cases l with
          | nil =>
              simp [collectImages, List.filterMap_cons, List.filter_cons, hasImages, hq] at ih ⊢
              exact ih
          | cons img t =>
              simp [collectImages, List.filterMap_cons, List.filter_cons, hasImages, hq] at ih ⊢
              exact ih

/-- Looking up a region whose query returned a non empty list in the
collected entries yields the first returned image. -/
theorem lookupKey_collectImages (query : String → List String → QueryOutcome)
    (filters : List String) (r : String) (img : Image) (rest : List Image) :
    ∀ regions : List String, r ∈ regions →
      query r filters = QueryOutcome.images (img :: rest) →
      lookupKey r (collectImages query filters regions) = some img := by
  intro regions
  induction regions with
  | nil => intro hmem; exact absurd hmem (List.not_mem_nil r)
  | cons a tl ih =>
      intro hmem hq
      by_cases har : a = r
      · subst har
        simp [collectImages, List.filterMap_cons, hq, lookupKey]
      · have hmem2 : r ∈ tl := by
          rcases List.mem_cons.mp hmem with h1 | h1
          · exact absurd h1.symm har
          · exact h1
        cases hq2 : query a filters with
        | clientError c m =>
            simpa [collectImages, List.filterMap_cons, hq2] using ih hmem2 hq
        | otherExc =>
            simpa [collectImages, List.filterMap_cons, hq2] using ih hmem2 hq
        | images l =>
            cases l with
            | nil =>
                simpa [collectImages, List.filterMap_cons, hq2] using ih hmem2 hq
            | cons i t =>
                have := ih hmem2 hq
                simpa [collectImages, List.filterMap_cons, hq2, lookupKey, har] using this

/-- Lookup commutes with mapping a function over the values of an
association list. -/
theorem lookupKey_map_snd {α β : Type} (g : α → β) (r : String) :
    ∀ l : List (String × α),
      lookupKey r (l.map (fun p => (p.1, g p.2))) = (lookupKey r l).map g := by
  intro l
  induction l with
  | nil => simp [lookupKey]
  | cons p tl ih =>
      by_cases h : p.1 = r
      · simp [lookupKey, h]
      · simp [lookupKey, h, ih]

/-- When every target region either raises a ClientError or returns at
least one image, the run returns normally with the collected dicts. -/
theorem amiRun_ok_of_all (query : String → List String → QueryOutcome) (filters : List String)
    (regions : List String) (detailed : Bool)
    (h : ∀ r ∈ regions, regionOk query filters r = true) :
    amiRun query filters (Except.ok regions) none detailed =
      Except.ok (if detailed then AmiResult.detailed (collectImages query filters regions)
        else AmiResult.ids ((collectImages query filters regions).map
          (fun q => (q.1, q.2.imageId)))) := by
  simp [amiRun, regionSelect, amiLoop_ok_of_all query filters regions [] [] h]

/-- A detailed run that returns normally returns exactly the collected
metadata entries. -/
theorem amiRun_detailed_eq (query : String → List String → QueryOutcome) (filters : List String)
    (regions : List String) (md : List (String × Image))
    (h : amiRun query filters (Except.ok regions) none true =
      Except.ok (AmiResult.detailed md)) :
    md = collectImages query filters regions := by
  unfold amiRun regionSelect at h
  cases hl : amiLoop query filters regions [] [] with
  | error e => simp [hl] at h
  | ok p =>
      simp [hl] at h
      have := (amiLoop_eq_ok query filters regions [] [] p hl).1
      simpa [← h] using this

/-- An identifier run that returns normally returns exactly the
collected entries with the values projected to the image identifier. -/
theorem amiRun_ids_eq (query : String → List String → QueryOutcome) (filters : List String)
    (regions : List String) (am : List (String × String))
    (h : amiRun query filters (Except.ok regions) none false =
      Except.ok (AmiResult.ids am)) :
    am = (collectImages query filters regions).map (fun q => (q.1, q.2.imageId)) := by
  unfold amiRun regionSelect at h
  cases hl : amiLoop query filters regions [] [] with
  | error e => simp [hl] at h
  | ok p =>
      simp [hl] at h
      have := (amiLoop_eq_ok query filters regions [] [] p hl).2
      simpa [← h] using this

/-- Every key of a run that returns normally belongs to the selected
target region list. -/
theorem amiRun_keys (query : String → List String → QueryOutcome) (filters : List String)
    (allRegions : List String) (regionOpt : Option String) (detailed : Bool)
    (res : AmiResult) (targets : List String)
    (hsel : regionSelect (Except.ok allRegions) regionOpt = Except.ok targets)
    (h : amiRun query filters (Except.ok allRegions) regionOpt detailed = Except.ok res) :
    amiKeys res ⊆ targets := by
  unfold amiRun at h
  rw [hsel] at h
  cases hl : amiLoop query filters targets [] [] with
  | error e => simp [hl] at h
  | ok p =>
      simp [hl] at h
      have hmd := (amiLoop_eq_ok query filters targets [] [] p hl).1
      have ham := (amiLoop_eq_ok query filters targets [] [] p hl).2
      have hkeys : (collectImages query filters targets).map Prod.fst ⊆ targets := by
        rw [collectImages_keys]
        intro x hx
        exact List.mem_of_mem_filter hx
      cases detailed with
      | true =>
          simp at h
          rw [← h]
          simp only [amiKeys]
          rw [hmd]
          simpa using hkeys
      | false =>
          simp at h
          rw [← h]
          simp only [amiKeys]
          rw [ham]
          have hk2 : (((collectImages query filters targets).map
              (fun q => (q.1, q.2.imageId))).map Prod.fst) =
              (collectImages query filters targets).map Prod.fst := by
            simp [List.map_map, Function.comp]
          simp only [List.nil_append]
          rw [hk2]
          exact hkeys

/-! ## Concrete fixtures for witnesses and counterexamples -/

/-- A local config storing an access key directly under alice. -/
def cfgDirect : String → String :=
  fun s => if s = "alice" then "AKIAALICE" else ""

/-- A local config storing an access key only under gcreds-bob. -/
def cfgTemp : String → String :=
  fun s => if s = "gcreds-bob" then "ASIABOB" else ""

/-- A local config storing no access key at all. -/
def cfgEmpty : String → String :=
  fun _ => ""

/-- A local config storing access keys under a and under b. -/
def cfgAB : String → String :=
  fun s => if s = "a" then "AKIAA" else if s = "b" then "AKIAB" else ""

/-- A filesystem with no files. -/
def fsEmpty : String → Option (List String) :=
  fun _ => none

/-- A filesystem with one file named plist whose three lines are a, a
blank line, and b. -/
def fsBlank : String → Option (List String) :=
  fun p => if p = "plist" then some ["a", "", "b"] else none

/-- A provider environment where every profile session construction
reports ProfileNotFound. -/
def envPNF : String → ProfileStatus :=
  fun _ => ProfileStatus.profileNotFound

/-- A provider environment where every profile session construction
raises a ClientError with code AccessDenied. -/
def envCE : String → ProfileStatus :=
  fun _ => ProfileStatus.clientError "AccessDenied" "denied"

/-- A process environment without AWS_DEFAULT_REGION. -/
def envUnset : String → Option String :=
  fun _ => none

/-- A process environment where AWS_DEFAULT_REGION is set to the empty
string. -/
def envEmptyRegion : String → Option String :=
  fun k => if k = "AWS_DEFAULT_REGION" then some "" else none

/-- A provider query where region A returns one matching image, region
B succeeds with zero images, and every other region raises a
ClientError (a transport style error). -/
def qWitness : String → List String → QueryOutcome :=
  fun r _ =>
    if r = "A" then QueryOutcome.images [Image.mk "ami-1" "amzn-a"]
    else if r = "B" then QueryOutcome.images []
    else QueryOutcome.clientError "RequestLimitExceeded" "throttled"

/-! ## Claim theorems -/

/-- Claim C2 (confirmed): for every local configuration state and
profile name P, resolveProfile returns P unchanged when the config
stores an access key directly under P; returns the derived name
gcreds-P when only that derived name has a stored key; and returns none
when neither has one. -/
theorem resolveProfile_spec (config : String → String) (P : String) :
    (config P ≠ "" → resolveProfile config P "gcreds" = some P) ∧
    (config P = "" → config ("gcreds-" ++ P) ≠ "" →
      resolveProfile config P "gcreds" = some ("gcreds-" ++ P)) ∧
    (config P = "" → config ("gcreds-" ++ P) = "" →
      resolveProfile config P "gcreds" = none) := by
  refine ⟨?_, ?_, ?_⟩
  · intro h1
    simp [resolveProfile, h1]
  · intro h1 h2
    simp [resolveProfile, h1, h2]
  · intro h1 h2
    simp [resolveProfile, h1, h2]

/-- Witness for C2: concrete configs exercising all three branches. -/
theorem resolveProfile_spec_witness :
    resolveProfile cfgDirect "alice" "gcreds" = some "alice" ∧
    resolveProfile cfgTemp "bob" "gcreds" = some ("gcreds-" ++ "bob") ∧
    resolveProfile cfgEmpty "carol" "gcreds" = none :=
  ⟨(resolveProfile_spec cfgDirect "alice").1 (by decide),
   (resolveProfile_spec cfgTemp "bob").2.1 (by decide) (by decide),
   (resolveProfile_spec cfgEmpty "carol").2.2 rfl rfl⟩

/-- Claim C3 (confirmed): authenticated is a total Boolean function (it
never lets an exception escape) and returns true exactly when the sts
session is obtained and get_caller_identity reports HTTP status 200;
every failure mode, including an invalid token ClientError, an expired
token ClientError, any other ClientError, and any other exception,
yields false. -/
theorem authenticated_spec (env : String → ProfileStatus)
    (identity : Client → IdentityOutcome) (region : String) (profile : Option String) :
    authenticated env identity region profile = true ↔
      ∃ c, boto3_session env "sts" region profile = Except.ok c ∧
        identity c = IdentityOutcome.ok 200 := by
  unfold authenticated
  cases hb : boto3_session env "sts" region profile with
  | error e => simp
  | ok c =>
      cases hi : identity c with
      | ok st => simp [hi]
      | clientError cd m => simp [hi]
      | otherExc => simp [hi]

/-- Claim C4 (confirmed): for a named profile (neither absent nor the
literal default), a ProfileNotFound during profile scoped session
construction is not propagated: boto3_session warns and returns the
default credential client for the same service and region; a
ClientError during construction is re-raised to the caller. -/
theorem boto3_session_profile_fallback (env : String → ProfileStatus)
    (service region p : String) (hne : p ≠ "") (hnd : p ≠ "default") :
    (env p = ProfileStatus.profileNotFound →
      boto3_session env service region (some p) =
        Except.ok (Client.defaultClient service region)) ∧
    (∀ c m, env p = ProfileStatus.clientError c m →
      boto3_session env service region (some p) =
        Except.error (PyErr.clientError c m)) := by
  constructor
  · intro h
    simp [boto3_session, hne, hnd, h]
  · intro c m h
    simp [boto3_session, hne, hnd, h]

/-- Witness for C4: a profile that is not found falls back to the
default client, and a ClientError is re-raised. -/
theorem boto3_session_profile_fallback_witness :
    boto3_session envPNF "ec2" "us-east-1" (some "myprofile") =
      Except.ok (Client.defaultClient "ec2" "us-east-1") ∧
    boto3_session envCE "ec2" "us-east-1" (some "myprofile") =
      Except.error (PyErr.clientError "AccessDenied" "denied") :=
  ⟨(boto3_session_profile_fallback envPNF "ec2" "us-east-1" "myprofile"
      (by decide) (by decide)).1 rfl,
   (boto3_session_profile_fallback envCE "ec2" "us-east-1" "myprofile"
      (by decide) (by decide)).2 "AccessDenied" "denied" rfl⟩

/-- Claim C7 (confirmed): boto3_session called with the literal profile
default returns the same client as when called with no profile, and
both are the ambient default credential client for the service and
region. -/
theorem boto3_session_default_ambient (env : String → ProfileStatus)
    (service region : String) :
    boto3_session env service region (some "default") =
      boto3_session env service region none ∧
    boto3_session env service region none =
      Except.ok (Client.defaultClient service region) := by
  constructor
  · simp [boto3_session]
  · rfl

/-- Claim C10 (confirmed): when AWS_DEFAULT_REGION is unset, both
module level DEFAULT_REGION bindings raise KeyError (module import
fails); when it is set, the session module falls back to us-east-1
exactly on the empty (falsy) value while the image lookup module keeps
the raw value with no fallback at all. -/
theorem default_region_env (environ : String → Option String) :
    (environ "AWS_DEFAULT_REGION" = none →
      session_DEFAULT_REGION environ = Except.error PyErr.keyError ∧
      currentAmi_DEFAULT_REGION environ = Except.error PyErr.keyError) ∧
    (∀ v, environ "AWS_DEFAULT_REGION" = some v →
      session_DEFAULT_REGION environ = Except.ok (if v = "" then "us-east-1" else v) ∧
      currentAmi_DEFAULT_REGION environ = Except.ok v) ∧
    (∀ v, environ "AWS_DEFAULT_REGION" = some v →
      (session_DEFAULT_REGION environ = Except.ok "us-east-1" ↔
        (v = "" ∨ v = "us-east-1"))) := by
  refine ⟨?_, ?_, ?_⟩
  · intro h
    constructor
    · simp [session_DEFAULT_REGION, h]
    · simp [currentAmi_DEFAULT_REGION, h]
  · intro v h
    constructor
    · simp [session_DEFAULT_REGION, h]
    · simp [currentAmi_DEFAULT_REGION, h]
  · intro v h
    by_cases hv : v = "" <;> simp [session_DEFAULT_REGION, h, hv]

/-- Witness for C10: an environment without the variable makes both
bindings raise; an environment with the empty value triggers the
session module fallback while the image lookup module keeps the empty
string. -/
theorem default_region_env_witness :
    session_DEFAULT_REGION envUnset = Except.error PyErr.keyError ∧
    currentAmi_DEFAULT_REGION envUnset = Except.error PyErr.keyError ∧
    session_DEFAULT_REGION envEmptyRegion = Except.ok "us-east-1" ∧
    currentAmi_DEFAULT_REGION envEmptyRegion = Except.ok "" := by
  refine ⟨((default_region_env envUnset).1 rfl).1,
    ((default_region_env envUnset).1 rfl).2, ?_,
    ((default_region_env envEmptyRegion).2.1 "" (by decide)).2⟩
  have h := ((default_region_env envEmptyRegion).2.1 "" (by decide)).1
  simpa using h

/-- Counterexample for C5: a single profile name that is not a file
path yields a bare resolved name, not a sequence — refuting the claim
that every accepted input yields a sequence. -/
theorem parse_profiles_single_counterexample :
    parse_profiles cfgDirect fsEmpty (Profiles.str "alice") =
      ParseResult.single (some "alice") ∧
    isMany (parse_profiles cfgDirect fsEmpty (Profiles.str "alice")) = false := by
  constructor
  · rfl
  · rfl

/-- Claim C5 (corrected): a list input and a file path input yield the
sequence of names obtained by applying resolveProfile to each stripped
supplied name, but a single profile name that is not a file path yields
the bare result of resolveProfile, not a sequence. -/
theorem parse_profiles_amended (config : String → String)
    (fs : String → Option (List String)) :
    (∀ l : List String, parse_profiles config fs (Profiles.list l) =
      ParseResult.many (l.map (fun x => resolveProfile config (pyStrip x) "gcreds"))) ∧
    (∀ s lines, fs s = some lines → parse_profiles config fs (Profiles.str s) =
      ParseResult.many (lines.map (fun x => resolveProfile config (pyStrip x) "gcreds"))) ∧
    (∀ s, fs s = none → parse_profiles config fs (Profiles.str s) =
      ParseResult.single (resolveProfile config (pyStrip s) "gcreds")) := by
  refine ⟨fun l => rfl, ?_, ?_⟩
  · intro s lines h
    simp [parse_profiles, h]
  · intro s h
    simp [parse_profiles, h]

/-- Witness for C5: the three input forms on concrete configs. -/
theorem parse_profiles_amended_witness :
    parse_profiles cfgAB fsBlank (Profiles.list ["a", "b"]) =
      ParseResult.many (["a", "b"].map (fun x => resolveProfile cfgAB (pyStrip x) "gcreds")) ∧
    parse_profiles cfgAB fsBlank (Profiles.str "plist") =
      ParseResult.many (["a", "", "b"].map (fun x => resolveProfile cfgAB (pyStrip x) "gcreds")) ∧
    parse_profiles cfgDirect fsEmpty (Profiles.str "alice") =
      ParseResult.single (resolveProfile cfgDirect (pyStrip "alice") "gcreds") :=
  ⟨(parse_profiles_amended cfgAB fsBlank).1 ["a", "b"],
   (parse_profiles_amended cfgAB fsBlank).2.1 "plist" ["a", "", "b"] rfl,
   (parse_profiles_amended cfgDirect fsEmpty).2.2 "alice" rfl⟩

/-- Counterexample for C6: a file whose three lines contain a blank
line has two non blank lines, yet parse_profiles returns a sequence of
length three — the blank line is resolved like any other, not
skipped. -/
theorem parse_profiles_blank_lines_counterexample :
    fsBlank "plist" = some ["a", "", "b"] ∧
    (["a", "", "b"].filter (fun l => !(pyStrip l == ""))).length = 2 ∧
    parse_profiles cfgAB fsBlank (Profiles.str "plist") =
      ParseResult.many [some "a", none, some "b"] ∧
    ([some "a", none, some "b"] : List (Option String)).length = 3 := by
  refine ⟨rfl, ?_, ?_, rfl⟩
  · decide
  · rfl

/-- Claim C6 (corrected): for a file of N lines (every line counted,
blank or not), parse_profiles returns a sequence of length exactly N
whose i-th element is resolveProfile applied to the stripped i-th line,
in file order; the length equals the number of non blank lines only
when no line of the file is blank. -/
theorem parse_profiles_file_order (config : String → String)
    (fs : String → Option (List String)) (path : String) (lines : List String)
    (h : fs path = some lines) :
    parse_profiles config fs (Profiles.str path) =
      ParseResult.many (lines.map (fun x => resolveProfile config (pyStrip x) "gcreds")) ∧
    (lines.map (fun x => resolveProfile config (pyStrip x) "gcreds")).length = lines.length ∧
    ∀ i : Nat, (lines.map (fun x => resolveProfile config (pyStrip x) "gcreds"))[i]? =
      (lines[i]?).map (fun x => resolveProfile config (pyStrip x) "gcreds") := by
  refine ⟨by simp [parse_profiles, h], by simp, ?_⟩
  intro i
  simp

/-- Witness for C6: the concrete three line file. -/
theorem parse_profiles_file_order_witness :
    parse_profiles cfgAB fsBlank (Profiles.str "plist") =
      ParseResult.many (["a", "", "b"].map (fun x => resolveProfile cfgAB (pyStrip x) "gcreds")) ∧
    (["a", "", "b"].map (fun x => resolveProfile cfgAB (pyStrip x) "gcreds")).length = 3 := by
  have h := parse_profiles_file_order cfgAB fsBlank "plist" ["a", "", "b"] rfl
  exact ⟨h.1, h.2.1⟩

/-- Counterexample for C1: over regions A (one image), B (zero
images) and C (ClientError), the lookup does not return normally with
only A: the zero result region B makes Images[0] raise IndexError,
which the generic handler re-raises, so the whole call raises. -/
theorem amazonlinux_empty_region_counterexample :
    qWitness "A" aml1Filters = QueryOutcome.images [Image.mk "ami-1" "amzn-a"] ∧
    qWitness "B" aml1Filters = QueryOutcome.images [] ∧
    qWitness "C" aml1Filters = QueryOutcome.clientError "RequestLimitExceeded" "throttled" ∧
    amazonlinux1 qWitness (Except.ok ["A", "B", "C"]) none false =
      Except.error PyErr.indexError ∧
    amazonlinux2 qWitness (Except.ok ["A", "B", "C"]) none false =
      Except.error PyErr.indexError :=
  ⟨rfl, rfl, rfl, rfl, rfl⟩

/-- Claim C1 (corrected): regions whose query raises a ClientError are
logged and skipped, but a region whose query succeeds with an empty
image list is NOT skipped: it makes the call raise. When every queried
region either raises a ClientError or returns at least one image, both
lookups return normally with a mapping whose keys are exactly the
regions that returned at least one image; ClientError regions are
simply absent. -/
theorem amazonlinux_partial_failure (query : String → List String → QueryOutcome)
    (regions : List String) (detailed : Bool)
    (h1 : ∀ r ∈ regions, regionOk query aml1Filters r = true)
    (h2 : ∀ r ∈ regions, regionOk query aml2Filters r = true) :
    amazonlinux1 query (Except.ok regions) none detailed =
      Except.ok (if detailed then AmiResult.detailed (collectImages query aml1Filters regions)
        else AmiResult.ids ((collectImages query aml1Filters regions).map
          (fun p => (p.1, p.2.imageId)))) ∧
    amazonlinux2 query (Except.ok regions) none detailed =
      Except.ok (if detailed then AmiResult.detailed (collectImages query aml2Filters regions)
        else AmiResult.ids ((collectImages query aml2Filters regions).map
          (fun p => (p.1, p.2.imageId)))) ∧
    (collectImages query aml1Filters regions).map Prod.fst =
      regions.filter (fun r => hasImages query aml1Filters r) ∧
    (collectImages query aml2Filters regions).map Prod.fst =
      regions.filter (fun r => hasImages query aml2Filters r) :=
  ⟨amiRun_ok_of_all query aml1Filters regions detailed h1,
   amiRun_ok_of_all query aml2Filters regions detailed h2,
   collectImages_keys query aml1Filters regions,
   collectImages_keys query aml2Filters regions⟩

/-- Witness for C1: regions A (one image) and C (ClientError) — the
call returns normally and only A is a key. -/
theorem amazonlinux_partial_failure_witness :
    amazonlinux1 qWitness (Except.ok ["A", "C"]) none false =
      Except.ok (AmiResult.ids ((collectImages qWitness aml1Filters ["A", "C"]).map
        (fun p => (p.1, p.2.imageId)))) ∧
    (collectImages qWitness aml1Filters ["A", "C"]).map Prod.fst = ["A"] := by
  have h := amazonlinux_partial_failure qWitness ["A", "C"] false (by decide) (by decide)
  refine ⟨by simpa using h.1, ?_⟩
  rw [h.2.2.1]
  rfl

/-- Claim C8 (confirmed): a target region whose query succeeds with a
non empty image list is mapped, in a run that returns normally, to the
first image of the returned list: the full record under the detailed
flag, its identifier otherwise, for both amazonlinux1 and
amazonlinux2. -/
theorem amazonlinux_first_image (query : String → List String → QueryOutcome)
    (regions : List String) (r : String) (img1 img2 : Image) (rest1 rest2 : List Image)
    (md1 md2 : List (String × Image)) (am1 am2 : List (String × String))
    (hmem : r ∈ regions)
    (hq1 : query r aml1Filters = QueryOutcome.images (img1 :: rest1))
    (hq2 : query r aml2Filters = QueryOutcome.images (img2 :: rest2))
    (hd1 : amazonlinux1 query (Except.ok regions) none true =
      Except.ok (AmiResult.detailed md1))
    (hi1 : amazonlinux1 query (Except.ok regions) none false =
      Except.ok (AmiResult.ids am1))
    (hd2 : amazonlinux2 query (Except.ok regions) none true =
      Except.ok (AmiResult.detailed md2))
    (hi2 : amazonlinux2 query (Except.ok regions) none false =
      Except.ok (AmiResult.ids am2)) :
    lookupKey r md1 = some img1 ∧ lookupKey r am1 = some img1.imageId ∧
    lookupKey r md2 = some img2 ∧ lookupKey r am2 = some img2.imageId := by
  have e1 := amiRun_detailed_eq query aml1Filters regions md1 hd1
  have e2 := amiRun_ids_eq query aml1Filters regions am1 hi1
  have e3 := amiRun_detailed_eq query aml2Filters regions md2 hd2
  have e4 := amiRun_ids_eq query aml2Filters regions am2 hi2
  have l1 := lookupKey_collectImages query aml1Filters r img1 rest1 regions hmem hq1
  have l2 := lookupKey_collectImages query aml2Filters r img2 rest2 regions hmem hq2
  refine ⟨by rw [e1]; exact l1, ?_, by rw [e3]; exact l2, ?_⟩
  · rw [e2, lookupKey_map_snd, l1]
    rfl
  · rw [e4, lookupKey_map_snd, l2]
    rfl

/-- Witness for C8: the concrete region A run. -/
theorem amazonlinux_first_image_witness :
    lookupKey "A" [("A", Image.mk "ami-1" "amzn-a")] =
      some (Image.mk "ami-1" "amzn-a") ∧
    lookupKey "A" [("A", "ami-1")] = some "ami-1" := by
  have h := amazonlinux_first_image qWitness ["A", "C"] "A"
    (Image.mk "ami-1" "amzn-a") (Image.mk "ami-1" "amzn-a") [] []
    [("A", Image.mk "ami-1" "amzn-a")] [("A", Image.mk "ami-1" "amzn-a")]
    [("A", "ami-1")] [("A", "ami-1")]
    (by decide) rfl rfl rfl rfl rfl rfl
  exact ⟨h.1, h.2.1⟩

/-- Claim C9 (confirmed): in a run that returns normally, every key of
the returned mapping belongs to the selected target region list (the
single requested region, or the enumerated regions), for both
amazonlinux1 and amazonlinux2. -/
theorem amazonlinux_keys_queried (query : String → List String → QueryOutcome)
    (allRegions : List String) (regionOpt : Option String) (detailed : Bool)
    (res1 res2 : AmiResult) (targets : List String)
    (hsel : regionSelect (Except.ok allRegions) regionOpt = Except.ok targets)
    (h1 : amazonlinux1 query (Except.ok allRegions) regionOpt detailed = Except.ok res1)
    (h2 : amazonlinux2 query (Except.ok allRegions) regionOpt detailed = Except.ok res2) :
    amiKeys res1 ⊆ targets ∧ amiKeys res2 ⊆ targets :=
  ⟨amiRun_keys query aml1Filters allRegions regionOpt detailed res1 targets hsel h1,
   amiRun_keys query aml2Filters allRegions regionOpt detailed res2 targets hsel h2⟩

/-- Witness for C9: the concrete run over regions A and C. -/
theorem amazonlinux_keys_queried_witness :
    amiKeys (AmiResult.ids [("A", "ami-1")]) ⊆ ["A", "C"] := by
  have h := amazonlinux_keys_queried qWitness ["A", "C"] none false
    (AmiResult.ids [("A", "ami-1")]) (AmiResult.ids [("A", "ami-1")]) ["A", "C"]
    rfl rfl rfl
  exact h.1

end Pyaws
